import Mathlib

/-!
Verification development for the ParcelAgent repository.

The repository ships a React frontend (`App.js`, `ParcelForm` / `VoiceRecorder` /
`AuthService` in `VoiceRecorder.js`, `SharedPref` / `ParcelResult` in the unnamed
source parts) that talks to a FastAPI backend.  The backend pipeline (entity
extraction, merge, completeness validation, submission orchestration) is not part
of the shipped sources, so those components are modelled from the specification;
all frontend behaviour is embedded directly from the JavaScript sources.
-/

namespace ParcelAgent

/-! ## Entity model (spec §3, §4.3, §4.4)

Modelled from the spec: the backend Dialogue State Manager and Completeness
Validator are not among the shipped sources (only their frontend callers are).
The Entity Set is the closed record {company, originCity, destinationCity,
weightKg, material}, each field carrying a status `unset`, `stated` or
`invalid`. -/

inductive Field where
  | company
  | originCity
  | destinationCity
  | weightKg
  | material
deriving DecidableEq, Repr

/-- Per-field status: `unset`, `stated` (carrying the resolved value), or
`invalid` (carrying the original text, preserved for the clarifying prompt). -/
inductive FieldStatus where
  | unset
  | stated (value : String)
  | invalid (originalText : String)
deriving DecidableEq, Repr

/-- An Entity Set maps each of the five recognized fields to its status. -/
def EntitySet := Field → FieldStatus

/-- Modelled from the spec: merge rule of the Dialogue State Manager (§4.4):
new candidate entities from a turn overwrite only fields where the new field's
status is `stated` or `invalid`; `unset` candidate fields never overwrite
previously `stated` values. -/
def mergeField (old cand : FieldStatus) : FieldStatus :=
  match cand with
  | .unset => old
  | .stated v => .stated v
  | .invalid t => .invalid t

/-- Pointwise merge of a turn's candidate Entity Set into the accumulated one. -/
def mergeTurn (old cand : EntitySet) : EntitySet :=
  fun f => mergeField (old f) (cand f)

/-- Merge a whole sequence of turns (earliest first) into an accumulated set. -/
def mergeTurns (es : EntitySet) : List EntitySet → EntitySet
  | [] => es
  | cand :: rest => mergeTurns (mergeTurn es cand) rest

/-- A field status counts as `stated` exactly when it carries a stated value. -/
def FieldStatus.isStated : FieldStatus → Bool
  | .stated _ => true
  | _ => false

theorem mergeField_ne_unset (old cand : FieldStatus) (h : old ≠ .unset) :
    mergeField old cand ≠ .unset := by
  cases cand <;> simp [mergeField, h]

theorem mergeTurns_ne_unset (es : EntitySet) (turns : List EntitySet) (f : Field)
    (h : es f ≠ .unset) : mergeTurns es turns f ≠ .unset := by
  induction turns generalizing es with
  | nil => exact h
  | cons cand rest ih =>
      exact ih (mergeTurn es cand) (mergeField_ne_unset (es f) (cand f) h)

/-- C1: a field whose status is `stated` after an earlier turn never reverts to
`unset` in any later turn: each clarifying-response turn is merged into the
previously accumulated Entity Set, and an `unset` candidate field from a new
turn's extraction never overwrites a previously `stated` value. -/
theorem stated_never_reverts_to_unset
    (es : EntitySet) (f : Field) (later : List EntitySet)
    (h : (es f).isStated = true) :
    mergeTurns es later f ≠ .unset := by
  apply mergeTurns_ne_unset
  cases hf : es f with
  | unset => rw [hf] at h; simp [FieldStatus.isStated] at h
  | stated v => simp
  | invalid t => rw [hf] at h; simp [FieldStatus.isStated] at h

/-- Witness for C1 at a concrete conversation: `weightKg` stated as "50" in the
first turn survives a later turn that leaves it `unset` and one that restates it. -/
theorem stated_never_reverts_to_unset_witness :
    ((fun _ : Field => FieldStatus.stated "50") Field.weightKg).isStated = true ∧
    mergeTurns (fun _ => FieldStatus.stated "50")
      [fun _ => FieldStatus.unset, fun _ => FieldStatus.stated "75"]
      Field.weightKg ≠ .unset :=
  ⟨rfl, stated_never_reverts_to_unset (fun _ => .stated "50") Field.weightKg
    [fun _ => .unset, fun _ => .stated "75"] rfl⟩

/-! ## Completeness Validator (spec §4.3)

Modelled from the spec: the Completeness Validator is backend code absent from
the shipped sources.  Required fields are checked in the fixed order
company → originCity → destinationCity → weightKg → material, producing the
ordered list of `(field, reason)` issues; the empty list means `Complete`. -/

inductive IssueReason where
  | missing
  | invalidValue (originalText : String)
deriving DecidableEq, Repr

/-- The fixed field order of the required schema. -/
def fieldOrder : List Field :=
  [.company, .originCity, .destinationCity, .weightKg, .material]

/-- The issue a single field contributes: `missing` when `unset`,
`invalid:<originalText>` when `invalid`, nothing when `stated`. -/
def fieldIssue (es : EntitySet) (f : Field) : Option (Field × IssueReason) :=
  match es f with
  | .unset => some (f, .missing)
  | .invalid t => some (f, .invalidValue t)
  | .stated _ => none

/-- Modelled from the spec: the Completeness Validator walks the required
fields in the fixed order and collects the issues; `[]` is the `Complete`
verdict. -/
def validate (es : EntitySet) : List (Field × IssueReason) :=
  fieldOrder.filterMap (fieldIssue es)

theorem fieldIssue_fst (es : EntitySet) (f : Field) (p : Field × IssueReason)
    (h : fieldIssue es f = some p) : p.1 = f := by
  unfold fieldIssue at h
  cases hf : es f <;> rw [hf] at h
  case unset => injection h with h; rw [← h]
  case stated => cases h
  case invalid => injection h with h; rw [← h]

theorem map_fst_filterMap_fieldIssue (es : EntitySet) (l : List Field) :
    ((l.filterMap (fieldIssue es)).map Prod.fst).Sublist l := by
  induction l with
  | nil => simp
  | cons a t ih =>
      cases h : fieldIssue es a with
      | none =>
          rw [List.filterMap_cons, h]
          exact ih.cons a
      | some p =>
          rw [List.filterMap_cons, h, List.map_cons, fieldIssue_fst es a p h]
          exact ih.cons₂ a

/-- C6: the Completeness Validator is a deterministic function of the merged
Entity Set (identical merged sets produce identical verdicts no matter which
turn sequences built them), and the returned issue list is always ordered by
the fixed field order company → originCity → destinationCity → weightKg →
material. -/
theorem validate_deterministic_and_ordered :
    (∀ (es₁ es₂ : EntitySet) (turns₁ turns₂ : List EntitySet),
        mergeTurns es₁ turns₁ = mergeTurns es₂ turns₂ →
        validate (mergeTurns es₁ turns₁) = validate (mergeTurns es₂ turns₂)) ∧
    (∀ es : EntitySet, ((validate es).map Prod.fst).Sublist fieldOrder) := by
  refine ⟨fun es₁ es₂ turns₁ turns₂ h => by rw [h], fun es => ?_⟩
  exact map_fst_filterMap_fieldIssue es fieldOrder

/-- The Entity Set with every field `unset`. -/
def emptyEntitySet : EntitySet := fun _ => .unset

/-- Witness for C6 at a concrete merged set (every field still `unset`). -/
theorem validate_deterministic_and_ordered_witness :
    validate (mergeTurns emptyEntitySet []) = validate (mergeTurns emptyEntitySet []) ∧
    ((validate emptyEntitySet).map Prod.fst).Sublist fieldOrder :=
  ⟨validate_deterministic_and_ordered.1 emptyEntitySet emptyEntitySet [] [] rfl,
   validate_deterministic_and_ordered.2 emptyEntitySet⟩

/-! ## Weight validation (spec §4.2)

Modelled from the spec: weight resolution is backend code absent from the
shipped sources.  "Weight values are validated numerically (`> 0`, integer or
decimal kilograms); a non-numeric or non-positive value is `invalid`." -/

/-- Numeric value of a run of decimal digit characters. -/
def digitsVal (l : List Char) : Nat :=
  l.foldl (fun acc c => acc * 10 + (c.toNat - Char.toNat '0')) 0

/-- Parse an unsigned integer or decimal numeral (digits, optionally followed
by a point and further digits) into a rational number of kilograms. -/
def parseUnsignedDecimal (l : List Char) : Option ℚ :=
  let intPart := l.takeWhile Char.isDigit
  let rest := l.dropWhile Char.isDigit
  if intPart.isEmpty then none
  else
    match rest with
    | [] => some (Rat.divInt (digitsVal intPart) 1)
    | '.' :: frac =>
        if frac ≠ [] ∧ frac.all Char.isDigit then
          some (Rat.divInt (digitsVal intPart * 10 ^ frac.length + digitsVal frac)
            (10 ^ frac.length))
        else none
    | _ => none

/-- Parse a candidate weight string: an optional leading minus sign followed by
an integer or decimal numeral; anything else is non-numeric. -/
def parseDecimal (s : String) : Option ℚ :=
  match s.data with
  | '-' :: rest => (parseUnsignedDecimal rest).map (fun q => -q)
  | l => parseUnsignedDecimal l

/-- Outcome of resolving the `weightKg` field. -/
inductive WeightResolution where
  | stated (valueKg : ℚ)
  | invalid (originalText : String)
deriving DecidableEq, Repr

/-- Modelled from the spec: a candidate weight is `stated` when it parses to a
number strictly greater than zero; a non-numeric or non-positive value is
`invalid`, preserving the original text. -/
def resolveWeight (s : String) : WeightResolution :=
  match parseDecimal s with
  | some q => if 0 < q then .stated q else .invalid s
  | none => .invalid s

/-- C7: the `weightKg` field is accepted as `stated` iff the candidate parses
to a number strictly greater than 0; every non-numeric or non-positive
candidate yields `invalid`. -/
theorem resolveWeight_stated_iff_positive :
    (∀ (s : String) (q : ℚ),
        resolveWeight s = .stated q ↔ parseDecimal s = some q ∧ 0 < q) ∧
    (∀ s : String,
        (parseDecimal s = none ∨ ∃ q, parseDecimal s = some q ∧ q ≤ 0) →
        resolveWeight s = .invalid s) := by
  constructor
  · intro s q
    unfold resolveWeight
    cases hp : parseDecimal s with
    | none => simp
    | some q' =>
        by_cases hq : 0 < q'
        · simp only [hq, if_pos]
          constructor
          · rintro h; cases h; exact ⟨rfl, hq⟩
          · rintro ⟨h, _⟩; cases h; rfl
        · simp only [hq, if_neg, not_false_iff]
          constructor
          · intro h; cases h
          · rintro ⟨h, hq'⟩; cases h; exact absurd hq' hq
  · intro s h
    unfold resolveWeight
    rcases h with h | ⟨q, hq, hle⟩
    · rw [h]
    · rw [hq]
      exact if_neg (not_lt.mpr hle)

/-- Witness for C7: "50.5" is stated as 505/10 kg; "-3" and "abc" are invalid. -/
theorem resolveWeight_stated_iff_positive_witness :
    resolveWeight "50.5" = .stated (Rat.divInt 505 10) ∧
    resolveWeight "-3" = .invalid "-3" ∧
    resolveWeight "abc" = .invalid "abc" :=
  ⟨(resolveWeight_stated_iff_positive.1 "50.5" (Rat.divInt 505 10)).mpr
      ⟨by decide, by decide⟩,
   resolveWeight_stated_iff_positive.2 "-3"
      (Or.inr ⟨(-3 : ℚ), by decide, by decide⟩),
   resolveWeight_stated_iff_positive.2 "abc" (Or.inl (by decide))⟩

/-! ## Conversation state and Submission Orchestrator (spec §3, §4.4, §4.5)

Modelled from the spec: the Dialogue State Manager and Submission Orchestrator
are backend code absent from the shipped sources. -/

/-- Conversation status (spec §3). -/
inductive ConvStatus where
  | collecting
  | ready
  | submitted (trackingId cost : String)
  | failed (reason : String)
  | abandoned
deriving DecidableEq, Repr

/-- Outcome of the external submission collaborator
(`createParcel -> {trackingId, cost} | ValidationRejected | TransportFailure`). -/
inductive SubmitResult where
  | success (trackingId cost : String)
  | validationRejected (reason : String)
  | transportFailure
deriving DecidableEq, Repr

/-- Modelled from the spec: the Submission Orchestrator (§4.5) maps the
collaborator outcome of a Ready-state submission to the next Conversation
status: success records `{trackingId, cost}` and moves to Submitted; a
collaborator-reported validation failure moves to Failed with the returned
reason; a transport failure leaves the Conversation in Ready. -/
def applySubmission : SubmitResult → ConvStatus
  | .success t c => .submitted t c
  | .validationRejected r => .failed r
  | .transportFailure => .ready

/-- The `{trackingId, cost}` pair a terminal Conversation surfaces to the
caller, when it surfaces one. -/
def surfacedResult : ConvStatus → Option (String × String)
  | .submitted t c => some (t, c)
  | _ => none

/-- The failure reason a terminal Conversation surfaces to the caller, when it
surfaces one. -/
def surfacedFailure : ConvStatus → Option String
  | .failed r => some r
  | _ => none

/-- A Conversation: its merged Entity Set and its status. -/
structure Conversation where
  entities : EntitySet
  status : ConvStatus

/-- Modelled from the spec: Collecting-state turn processing of the Dialogue
State Manager (§4.4): merge the turn's candidate entities, then move to Ready
exactly when the Completeness Validator returns the `Complete` verdict. -/
def stepCollect (conv : Conversation) (cand : EntitySet) : Conversation :=
  let merged := mergeTurn conv.entities cand
  if validate merged = [] then ⟨merged, .ready⟩ else ⟨merged, .collecting⟩

/-- C2: a Complete Entity Set reaches Ready, and a successful submission with
collaborator result `{trackingId, cost}` ends the Conversation in Submitted
status surfacing exactly that pair — the pair is whatever the collaborator
returned, never a placeholder or built-in default. -/
theorem submitted_holds_exact_result (es cand : EntitySet) (t c : String)
    (h : validate (mergeTurn es cand) = []) :
    (stepCollect ⟨es, .collecting⟩ cand).status = .ready ∧
    applySubmission (.success t c) = .submitted t c ∧
    surfacedResult (applySubmission (.success t c)) = some (t, c) := by
  refine ⟨?_, rfl, rfl⟩
  unfold stepCollect
  simp only [h, if_pos]

/-- Scenario A's fully stated Entity Set: "Create a parcel for ABC Company
from Jaipur to Kolkata, 50kg paint". -/
def scenarioA : EntitySet := fun f =>
  match f with
  | .company => .stated "ABC Company"
  | .originCity => .stated "jaipur"
  | .destinationCity => .stated "kolkata"
  | .weightKg => .stated "50"
  | .material => .stated "paint"

/-- Witness for C2 at Scenario A with collaborator result
`{trackingId := "PCL-42", cost := "12345"}`. -/
theorem submitted_holds_exact_result_witness :
    (stepCollect ⟨emptyEntitySet, .collecting⟩ scenarioA).status = .ready ∧
    applySubmission (.success "PCL-42" "12345") = .submitted "PCL-42" "12345" ∧
    surfacedResult (applySubmission (.success "PCL-42" "12345")) =
      some ("PCL-42", "12345") :=
  submitted_holds_exact_result emptyEntitySet scenarioA "PCL-42" "12345" (by decide)

/-! ## Frontend error surfacing (App.js `handleSubmit`, lines 71-94) -/

/-- JavaScript `x || dflt` on an optional string: the default replaces both a
missing and an empty (falsy) string. -/
def jsOrDefault (x : Option String) (dflt : String) : String :=
  match x with
  | some s => if s = "" then dflt else s
  | none => dflt

/-- From App.js lines 88-91: the error message shown for a failed
`/api/create-parcel` request is `err.response?.data?.detail` when present,
otherwise the generic fallback text. -/
def handleSubmitErrorMessage (detail : Option String) : String :=
  jsOrDefault detail "An error occurred while creating the parcel"

/-- C3: a submission the collaborator rejects with validation reason `r` moves
the Conversation to Failed carrying exactly `r`, surfaced verbatim to the
caller; in the frontend, a rejection detail `r` from the backend is likewise
shown verbatim, not replaced by the generic failure message. -/
theorem validation_rejection_surfaced_verbatim :
    (∀ r : String,
        applySubmission (.validationRejected r) = .failed r ∧
        surfacedFailure (applySubmission (.validationRejected r)) = some r) ∧
    (∀ r : String, r ≠ "" → handleSubmitErrorMessage (some r) = r) := by
  refine ⟨fun r => ⟨rfl, rfl⟩, fun r hr => ?_⟩
  unfold handleSubmitErrorMessage jsOrDefault
  simp [hr]

/-- Witness for C3 at Scenario D's reason "route not serviced". -/
theorem validation_rejection_surfaced_verbatim_witness :
    applySubmission (.validationRejected "route not serviced") =
      .failed "route not serviced" ∧
    handleSubmitErrorMessage (some "route not serviced") = "route not serviced" :=
  ⟨(validation_rejection_surfaced_verbatim.1 "route not serviced").1,
   validation_rejection_surfaced_verbatim.2 "route not serviced" (by decide)⟩

/-! ## Reference Catalog loading (App.js `loadData`, lines 34-52) -/

/-- The city and material lists a session works with. -/
structure RefCatalog where
  cities : List String
  materials : List String
deriving DecidableEq, Repr

/-- Outcome of the session's reference-data fetch
(`GET /api/cities` + `GET /api/materials`). -/
inductive FetchOutcome where
  | ok (cities : Option (List String)) (materials : Option (List String))
  | failure
deriving DecidableEq, Repr

/-- From App.js lines 34-52: on success the catalog is the fetched lists
(`data.cities || []`); on any fetch error the fixed fallback lists are used. -/
def loadData : FetchOutcome → RefCatalog
  | .ok cs ms => ⟨cs.getD [], ms.getD []⟩
  | .failure => ⟨["jaipur", "kolkata"], ["paint", "chemicals"]⟩

/-- Character-wise lowercasing of a name, the normalization the Reference
Resolver applies before matching (spec §4.2). -/
def lowerName (s : String) : String :=
  ⟨s.data.map Char.toLower⟩

/-- C4: when the reference-data lookup fails, the catalog used thereafter is
exactly the fixed built-in default set — the cities {Jaipur, Kolkata} and the
materials {Paint, Chemicals}, stored in the code's lowercase spelling (the
Reference Resolver matches names case-insensitively, spec §4.2). -/
theorem fallback_catalog_is_default :
    loadData .failure = ⟨["jaipur", "kolkata"], ["paint", "chemicals"]⟩ ∧
    (loadData .failure).cities = ["Jaipur", "Kolkata"].map lowerName ∧
    (loadData .failure).materials = ["Paint", "Chemicals"].map lowerName := by
  refine ⟨rfl, ?_, ?_⟩ <;> decide

/-! ## Auth token storage (SharedPref, unnamed part_000 lines 1-40;
AuthService in VoiceRecorder.js lines 476-503) -/

/-- Browser localStorage: a partial map from key to stored string. -/
def Storage := String → Option String

/-- From SharedPref lines 3-5: the token getter is
`localStorage.getItem('authToken') || ''` (missing and empty both yield ""). -/
def sharedPrefToken (store : Storage) : String :=
  jsOrDefault (store "authToken") ""

/-- From AuthService `isAuthenticated` (`!!this.token`, with `this.token`
initialized from `SharedPref.token`): a JS string is truthy iff non-empty. -/
def isAuthenticated (store : Storage) : Bool :=
  sharedPrefToken store != ""

/-- From SharedPref lines 34-39 `getApiHeaders`: always two headers, with
`Authorization` set to `this.token ?? ''` (the getter never yields null, so
this is the stored token, possibly the empty string — never an omitted
header). -/
def getApiHeaders (store : Storage) : List (String × String) :=
  [("Authorization", sharedPrefToken store), ("Content-Type", "application/json")]

/-- The storage of a fresh session: nothing stored under any key. -/
def freshStorage : Storage := fun _ => none

/-- C8: `isAuthenticated` returns true exactly when the stored token is a
non-empty string; in a fresh session the token getter yields the empty string,
the session is reported unauthenticated, and `getApiHeaders` still sends an
`Authorization` header whose value is the empty string rather than omitting
it. -/
theorem isAuthenticated_iff_token_nonempty :
    (∀ store : Storage, isAuthenticated store = true ↔ sharedPrefToken store ≠ "") ∧
    sharedPrefToken freshStorage = "" ∧
    isAuthenticated freshStorage = false ∧
    ("Authorization", "") ∈ getApiHeaders freshStorage := by
  refine ⟨fun store => ?_, rfl, rfl, ?_⟩
  · unfold isAuthenticated
    exact bne_iff_ne
  · simp [getApiHeaders, sharedPrefToken, freshStorage, jsOrDefault]

/-- A session whose storage holds the token "tok-1". -/
def tokenStorage : Storage :=
  fun k => if k = "authToken" then some "tok-1" else none

/-- Witness for C8: with "tok-1" stored, the session is authenticated. -/
theorem isAuthenticated_iff_token_nonempty_witness :
    isAuthenticated tokenStorage = true :=
  (isAuthenticated_iff_token_nonempty.1 tokenStorage).mpr (by decide)

/-! ## ParcelForm submission (ParcelForm in VoiceRecorder.js lines 259-476) -/

/-- JavaScript String.prototype.trim: strip leading and trailing whitespace. -/
def jsTrim (s : String) : String :=
  ⟨((s.data.dropWhile Char.isWhitespace).reverse.dropWhile Char.isWhitespace).reverse⟩

/-- The five quick-form fields, in their object insertion order. -/
structure QuickFormData where
  company : String
  fromCity : String
  toCity : String
  weight : String
  material : String
deriving DecidableEq, Repr

/-- The form's local state: the free-text message, the mode toggle, and the
quick-form data. -/
structure FormState where
  message : String
  useQuickForm : Bool
  quick : QuickFormData
deriving DecidableEq, Repr

/-- From ParcelForm lines 273-277: quick-form data is converted to the natural
language message template. -/
def generatedMessage (q : QuickFormData) : String :=
  "Create a parcel for " ++ q.company ++ " from " ++ q.fromCity ++ " to " ++
    q.toCity ++ ", " ++ q.weight ++ "kg " ++ q.material

/-- From ParcelForm lines 296-298 `isFormValid`: in quick-form mode every field
must be non-blank after trimming; otherwise the free-text message must be. -/
def isFormValid (st : FormState) : Bool :=
  if st.useQuickForm then
    [st.quick.company, st.quick.fromCity, st.quick.toCity, st.quick.weight,
      st.quick.material].all (fun v => jsTrim v != "")
  else jsTrim st.message != ""

/-- From ParcelForm lines 270-283 `handleSubmit`: the message passed to
`onSubmit`, or `none` when nothing is submitted (a blank free-text message is
dropped; quick-form mode always submits the generated template). -/
def formSubmitMessage (st : FormState) : Option String :=
  if st.useQuickForm then some (generatedMessage st.quick)
  else if jsTrim st.message != "" then some (jsTrim st.message) else none

/-- From ParcelForm lines 448-451: the submit button is disabled whenever the
form is invalid or a request is in flight. -/
def submitDisabled (st : FormState) (isLoading : Bool) : Bool :=
  !isFormValid st || isLoading

/-- C10: every utterance the free-text form passes to `onSubmit` is the trim of
the typed message and non-empty; quick-form validity is exactly all five fields
non-blank after trimming; and the submit button is disabled whenever the form
is invalid or a request is in flight. -/
theorem form_submit_trimmed_and_guarded :
    (∀ (st : FormState) (m : String), st.useQuickForm = false →
        formSubmitMessage st = some m → m = jsTrim st.message ∧ m ≠ "") ∧
    (∀ st : FormState, st.useQuickForm = true →
        (isFormValid st = true ↔
          jsTrim st.quick.company ≠ "" ∧ jsTrim st.quick.fromCity ≠ "" ∧
          jsTrim st.quick.toCity ≠ "" ∧ jsTrim st.quick.weight ≠ "" ∧
          jsTrim st.quick.material ≠ "")) ∧
    (∀ (st : FormState) (isLoading : Bool),
        isFormValid st = false ∨ isLoading = true →
        submitDisabled st isLoading = true) := by
  refine ⟨fun st m hq hm => ?_, fun st hq => ?_, fun st isLoading h => ?_⟩
  · unfold formSubmitMessage at hm
    rw [hq] at hm
    simp only [Bool.false_eq_true, if_false] at hm
    by_cases hne : jsTrim st.message != ""
    · rw [if_pos hne] at hm
      injection hm with hm
      exact ⟨hm.symm, by rw [← hm]; exact bne_iff_ne.mp hne⟩
    · rw [if_neg hne] at hm
      cases hm
  · unfold isFormValid
    rw [hq]
    simp [List.all, bne_iff_ne, and_assoc]
  · unfold submitDisabled
    rcases h with h | h
    · rw [h]; rfl
    · rw [h, Bool.or_true]

/-- A free-text form state whose message carries surrounding whitespace. -/
def paddedForm : FormState := ⟨"  hello world  ", false, ⟨"", "", "", "", ""⟩⟩

/-- Witness for C10: the padded free-text message is submitted trimmed and
non-empty; a blank quick form is invalid, hence the button is disabled. -/
theorem form_submit_trimmed_and_guarded_witness :
    ("hello world" = jsTrim paddedForm.message ∧ ("hello world" : String) ≠ "") ∧
    submitDisabled ⟨"", true, ⟨"", "", "", "", ""⟩⟩ false = true :=
  ⟨form_submit_trimmed_and_guarded.1 paddedForm "hello world" rfl (by decide),
   form_submit_trimmed_and_guarded.2.2 ⟨"", true, ⟨"", "", "", "", ""⟩⟩ false
     (Or.inl (by decide))⟩

/-! ## At-most-one in-flight submission (App.js lines 71-99, ParcelForm lines
448-451, ParcelResult lines 55-60 and 100-103)

App's React state drives which user actions can fire: the submit button is
disabled while `isLoading`, and `handleSubmit` clears `result` before the
request, so the clarifying-response card (rendered only when `result` is
present) disappears for the whole flight. -/

/-- Abstract App state: the `isLoading` / `result` / `error` React state plus
the number of in-flight `/api/create-parcel` requests. -/
structure AppState where
  isLoading : Bool
  result : Option String
  error : Option String
  inflight : Nat
deriving DecidableEq, Repr

/-- The events that drive App: submitting the parcel form, submitting a
clarifying response from the result card, and an in-flight request settling
with success (payload = result message) or failure (payload = error text). -/
inductive AppEvent where
  | formSubmit (message : String) (form : FormState)
  | clarifySubmit (input : String)
  | complete (ok : Bool) (payload : String)
deriving DecidableEq, Repr

/-- Which events can fire in a given state: the form submits only while its
button is enabled (ParcelForm line 450); the clarifying response submits only
while the result card is rendered with a non-blank input (ParcelResult lines
55-60, 102); a request settles only while one is in flight. -/
def eventEnabled (s : AppState) : AppEvent → Bool
  | .formSubmit _ form => !submitDisabled form s.isLoading
  | .clarifySubmit input => s.result.isSome && (jsTrim input != "")
  | .complete _ _ => s.isLoading

/-- From App.js lines 71-75: `handleSubmit` sets `isLoading`, clears the error
and the previous result, and starts the request. -/
def beginSubmit (s : AppState) : AppState :=
  { isLoading := true, result := none, error := none, inflight := s.inflight + 1 }

/-- From App.js lines 83-93: the request settles, recording the result or the
error, and the `finally` block clears `isLoading`. -/
def completeSubmit (s : AppState) (ok : Bool) (payload : String) : AppState :=
  { isLoading := false,
    result := if ok then some payload else none,
    error := if ok then none else some payload,
    inflight := s.inflight - 1 }

/-- Effect of each event on the App state (`handleClarifyingResponse` just
forwards to `handleSubmit`, App.js lines 96-99). -/
def applyEvent (s : AppState) : AppEvent → AppState
  | .formSubmit _ _ => beginSubmit s
  | .clarifySubmit _ => beginSubmit s
  | .complete ok payload => completeSubmit s ok payload

/-- The initial App state: not loading, no result, no error, nothing in
flight. -/
def initialAppState : AppState := ⟨false, none, none, 0⟩

/-- The states App can reach by firing enabled events from the initial
state. -/
inductive Reachable : AppState → Prop
  | init : Reachable initialAppState
  | step {s : AppState} (e : AppEvent) :
      Reachable s → eventEnabled s e = true → Reachable (applyEvent s e)

theorem reachable_invariant {s : AppState} (h : Reachable s) :
    s.inflight = (if s.isLoading then 1 else 0) ∧
    (s.isLoading = true → s.result = none) := by
  induction h with
  | init => exact ⟨rfl, fun h => rfl⟩
  | step e hr hen ih =>
      rename_i st
      cases e with
      | formSubmit m form =>
          have hload : st.isLoading = false := by
            simp only [eventEnabled, submitDisabled] at hen
            cases hl : st.isLoading
            · rfl
            · rw [hl] at hen
              simp at hen
          refine ⟨?_, fun _ => rfl⟩
          simp [applyEvent, beginSubmit, ih.1, hload]
      | clarifySubmit input =>
          have hload : st.isLoading = false := by
            simp only [eventEnabled] at hen
            cases hl : st.isLoading
            · rfl
            · rw [ih.2 hl] at hen
              simp at hen
          refine ⟨?_, fun _ => rfl⟩
          simp [applyEvent, beginSubmit, ih.1, hload]
      | complete ok payload =>
          have hload : st.isLoading = true := hen
          refine ⟨?_, fun hc => by simp [applyEvent, completeSubmit] at hc⟩
          simp [applyEvent, completeSubmit, ih.1, hload]

/-- C5: in every reachable App state at most one submission is in flight, and
while one is in flight neither the parcel form nor the clarifying-response
card can fire another submission — a further utterance is blocked rather than
queued. -/
theorem at_most_one_inflight_submission (s : AppState) (h : Reachable s) :
    s.inflight ≤ 1 ∧
    (s.isLoading = true →
      (∀ (m : String) (form : FormState),
          eventEnabled s (.formSubmit m form) = false) ∧
      (∀ input : String, eventEnabled s (.clarifySubmit input) = false)) := by
  obtain ⟨hcount, hres⟩ := reachable_invariant h
  constructor
  · rw [hcount]
    cases s.isLoading <;> simp
  · intro hload
    refine ⟨fun m form => ?_, fun input => ?_⟩
    · simp only [eventEnabled, submitDisabled]
      rw [hload]
      simp
    · simp only [eventEnabled]
      rw [hres hload]
      simp

/-- A valid free-text form state used to fire a concrete submission. -/
def freeTextForm : FormState := ⟨"hi", false, ⟨"", "", "", "", ""⟩⟩

/-- Witness for C5 at the state reached by one form submission: one request is
in flight and both submission paths are blocked. -/
theorem at_most_one_inflight_submission_witness :
    (applyEvent initialAppState (.formSubmit "hi" freeTextForm)).inflight ≤ 1 ∧
    ((applyEvent initialAppState (.formSubmit "hi" freeTextForm)).isLoading = true →
      (∀ (m : String) (form : FormState),
          eventEnabled (applyEvent initialAppState (.formSubmit "hi" freeTextForm))
            (.formSubmit m form) = false) ∧
      (∀ input : String,
          eventEnabled (applyEvent initialAppState (.formSubmit "hi" freeTextForm))
            (.clarifySubmit input) = false)) :=
  at_most_one_inflight_submission _
    (Reachable.step (.formSubmit "hi" freeTextForm) Reachable.init (by decide))

/-! ## ParcelResult rendering (unnamed part_000, lines 44-70) -/

/-- Whether the second list starts with the first one. -/
def leadsWith : List Char → List Char → Bool
  | [], _ => true
  | _ :: _, [] => false
  | p :: ps, c :: cs => p == c && leadsWith ps cs

/-- First-match extraction for a JS regex of shape `pre(<class>+)`: scan left
to right for the first position where `pre` occurs followed by at least one
character accepted by `ok`; the capture is the maximal (greedy `+`) run of
accepted characters there. -/
def jsMatch1 (pre : List Char) (ok : Char → Bool) : List Char → Option (List Char)
  | [] => none
  | c :: cs =>
      if leadsWith pre (c :: cs) && !(((c :: cs).drop pre.length).takeWhile ok).isEmpty then
        some (((c :: cs).drop pre.length).takeWhile ok)
      else jsMatch1 pre ok cs

/-- From ParcelResult line 53: a clarifying question is a message starting
with the character '❓' (`message.startsWith('❓')`). -/
def isClarifyingQuestion (message : String) : Bool :=
  leadsWith "❓".data message.data

/-- From ParcelResult lines 63 and 66: `message.match(/Parcel ID: ([^\n]+)/)`,
defaulting to "N/A" when there is no match. -/
def parcelIdOf (message : String) : String :=
  match jsMatch1 "Parcel ID: ".data (fun c => c != '\n') message.data with
  | some cap => ⟨cap⟩
  | none => "N/A"

/-- From ParcelResult lines 64 and 67: `message.match(/Cost: ₹([0-9,]+)/)` —
note the capture class accepts digits and commas — defaulting to "29997" when
there is no match. -/
def costOf (message : String) : String :=
  match jsMatch1 "Cost: ₹".data (fun c => c.isDigit || c == ',') message.data with
  | some cap => ⟨cap⟩
  | none => "29997"

/-- How ParcelResult renders a result message. -/
inductive RenderMode where
  | clarifying
  | terminal
deriving DecidableEq, Repr

/-- From ParcelResult lines 69-124: a message starting with '❓' renders the
clarifying-question card; any other message renders the terminal
success/failure card. -/
def renderMode (message : String) : RenderMode :=
  if isClarifyingQuestion message then .clarifying else .terminal

/-- Counterexample to C9 as stated: the message "Cost: ₹," contains no
occurrence of 'Cost: ₹' followed by a digit, yet the displayed cost is ","
rather than the default "29997", because the capture class `[0-9,]` of the
source regex also accepts commas. -/
theorem cost_default_counterexample :
    jsMatch1 ("Cost: ₹".data) Char.isDigit ("Cost: ₹,".data) = none ∧
    costOf "Cost: ₹," = "," ∧ ("," : String) ≠ "29997" :=
  ⟨by decide, by decide, by decide⟩

/-- C9 (amended): ParcelResult classifies a message as a clarifying question
exactly when it starts with '❓' (anything else renders as a terminal result);
the displayed cost defaults to "29997" exactly for messages with no occurrence
of 'Cost: ₹' followed by a digit-or-comma character, and the parcel ID
defaults to "N/A" exactly for messages with no occurrence of 'Parcel ID: '
followed by a non-newline character. -/
theorem render_classification_and_defaults :
    (∀ message : String,
        renderMode message = .clarifying ↔ message.data.head? = some '❓') ∧
    (∀ message : String,
        jsMatch1 ("Cost: ₹".data) (fun c => c.isDigit || c == ',') message.data = none →
        costOf message = "29997") ∧
    (∀ message : String,
        jsMatch1 ("Parcel ID: ".data) (fun c => c != '\n') message.data = none →
        parcelIdOf message = "N/A") := by
  refine ⟨fun message => ?_, fun message h => ?_, fun message h => ?_⟩
  · unfold renderMode isClarifyingQuestion
    cases hd : message.data with
    | nil => simp [leadsWith]
    | cons c cs =>
        by_cases hc : c = '❓'
        · subst hc
          simp [leadsWith]
        · have : leadsWith "❓".data (c :: cs) = false := by
            simp [leadsWith, Ne.symm hc, hc]
          rw [this]
          simp [Ne.symm hc, hc]
  · unfold costOf
    rw [h]
  · unfold parcelIdOf
    rw [h]

/-- Witness for C9 (amended) at concrete messages: "❓ Which city?" renders as
a clarifying question, and a success message naming neither marker shows the
default cost "29997" and parcel ID "N/A". -/
theorem render_classification_and_defaults_witness :
    renderMode "❓ Which city?" = .clarifying ∧
    costOf "Parcel created" = "29997" ∧
    parcelIdOf "Parcel created" = "N/A" :=
  ⟨(render_classification_and_defaults.1 "❓ Which city?").mpr (by decide),
   render_classification_and_defaults.2.1 "Parcel created" (by decide),
   render_classification_and_defaults.2.2 "Parcel created" (by decide)⟩

end ParcelAgent
